import Mathlib

/-!
Verification of the Pumpkin datafixerupper serialization core.

This file gives a shallow embedding, in Lean, of the parts of the
`pumpkin-datafixerupper` crate that the checked claims are about:

* `Lifecycle` and its `add` operation (`serialization/lifecycle.rs`);
* `DataResult` and its combinators (`serialization/data_result.rs`);
* `KeyCompressor` (`serialization/key_compressor.rs`);
* the `Number` integer conversions (`serialization/mod.rs`);
* `ListCodec::decode` (`serialization/codecs/list.rs`);
* `OptionalFieldMapCodec` and the `lenient_optional_field` constructor
  (`serialization/map_codecs/optional_field.rs`, `serialization/codec.rs`);
* `EitherCodec` (`serialization/codecs/either.rs`);
* string-keyed dispatch (`serialization/map_codecs/key_dispatch.rs`).

Rust `HashMap`s are modelled as association lists (only `insert`,
`contains_key` and `get` are used by the embedded code), iterators as
lists, and panicking accessors return `Option` (with `none` standing for
the panic).  Generic trait parameters (dynamic ops, element codecs,
struct builders) become explicit function arguments.
-/

namespace Pumpkin

/-- The lifecycle marker from `serialization/lifecycle.rs`:
`Stable | Experimental | Deprecated(since: u32)`.  The `u32` date is
modelled as a `Nat`; `add` only compares dates, so no wrap-around can
occur. -/
inductive Lifecycle where
  | stable : Lifecycle
  | experimental : Lifecycle
  | deprecated (since : Nat) : Lifecycle
deriving DecidableEq, Repr

/-- Source `Lifecycle::add` from `serialization/lifecycle.rs` lines 24-40,
with the same match-arm order as the Rust source. -/
def Lifecycle.add : Lifecycle → Lifecycle → Lifecycle
  | .experimental, _ => .experimental
  | _, .experimental => .experimental
  | .deprecated s1, .deprecated s2 =>
      if s1 < s2 then .deprecated s1 else .deprecated s2
  | .deprecated s, .stable => .deprecated s
  | .stable, .deprecated s => .deprecated s
  | .stable, .stable => .stable

/-- Source `DataResult<R>` from `serialization/data_result.rs` lines 94-104.
`error` carries `partial_result: Option<R>` (here `part`), a lifecycle and
a message, in the order of the Rust struct fields. -/
inductive DataResult (R : Type u) where
  | success (result : R) (lifecycle : Lifecycle)
  | error (part : Option R) (lifecycle : Lifecycle) (message : String)
deriving Repr, DecidableEq

namespace DataResult

/-- Source `DataResult::lifecycle`. -/
def lifecycle : DataResult R → Lifecycle
  | .success _ lc => lc
  | .error _ lc _ => lc

/-- Source `DataResult::with_lifecycle`. -/
def withLifecycle : DataResult R → Lifecycle → DataResult R
  | .success v _, lc => .success v lc
  | .error p _ m, lc => .error p lc m

/-- Source `DataResult::add_lifecycle`. -/
def addLifecycle (r : DataResult R) (added : Lifecycle) : DataResult R :=
  withLifecycle r (Lifecycle.add (lifecycle r) added)

/-- Source `DataResult::into_result` (lines 212-218): `Some` only for a
complete result, `None` for both kinds of error. -/
def intoResult : DataResult R → Option R
  | .success v _ => some v
  | .error _ _ _ => none

/-- Source `DataResult::into_result_or_partial` (lines 221-226): the complete
result or the error's carried value. -/
def intoResultOrPart : DataResult R → Option R
  | .success v _ => some v
  | .error p _ _ => p

/-- Source `DataResult::unwrap` (lines 229-232).  The Rust function panics when
no complete result exists; the panic is modelled as `none`. -/
def unwrap (r : DataResult R) : Option R :=
  intoResult r

/-- Source `DataResult::unwrap_or_partial` (lines 235-238).  The Rust function
panics when neither a complete nor a partial result exists; the panic is
modelled as `none`. -/
def unwrapOrPart (r : DataResult R) : Option R :=
  intoResultOrPart r

/-- Source `DataResult::has_result_or_partial` (lines 241-249). -/
def hasResultOrPart : DataResult R → Bool
  | .error none _ _ => false
  | _ => true

/-- Source `DataResult::is_success` (lines 539-541). -/
def isSuccess : DataResult R → Bool
  | .success _ _ => true
  | .error _ _ _ => false

/-- Source `DataResult::is_error` (lines 544-546). -/
def isError (r : DataResult R) : Bool :=
  !(isSuccess r)

/-- Modelled from the spec: `DataResult::get_message` (used by
`either.rs` and the tests, not defined inside `src/`): the error's
message, if any ("an Error always has a message"). -/
def getMessage : DataResult R → Option String
  | .success _ _ => none
  | .error _ _ m => some m

/-- Source `DataResult::append_messages` (lines 254-256):
`format!("{first}; {second}")`. -/
def appendMessages (first second : String) : String :=
  first ++ "; " ++ second

/-- Source `DataResult::map` (lines 262-273). -/
def map (r : DataResult R) (op : R → T) : DataResult T :=
  match r with
  | .success v lc => .success (op v) lc
  | .error p lc m => .error (Option.map op p) lc m

/-- Source `DataResult::flat_map` (lines 295-334). -/
def flatMap (r : DataResult R) (f : R → DataResult T) : DataResult T :=
  match r with
  | .success v lc => addLifecycle (f v) lc
  | .error p lc m =>
    match p with
    | some v =>
      let secondResult := f v
      let newLifecycle := Lifecycle.add (lifecycle secondResult) lc
      match secondResult with
      | .success w _ => .error (some w) newLifecycle m
      | .error p2 _ m2 => .error p2 newLifecycle (appendMessages m m2)
    | none => .error none lc m

/-- Source `DataResult::apply_2` (lines 391-427), with the same match-arm order
as the Rust source. -/
def apply2 (r1 : DataResult R) (f : R → R2 → T) (r2 : DataResult R2) :
    DataResult T :=
  match r1, r2 with
  | .success r _, .success a _ => .success (f r a) .experimental
  | .error p1 _ m1, .error p2 _ m2 =>
    .error
      (match p1, p2 with
       | some v1, some v2 => some (f v1 v2)
       | _, _ => none)
      .experimental (appendMessages m1 m2)
  | .error _ _ m1, _ => .error none .experimental m1
  | _, .error _ _ m2 => .error none .experimental m2

/-- Source `DataResult::apply_2_and_make_stable` (lines 431-438). -/
def apply2AndMakeStable (r1 : DataResult R) (f : R → R2 → T)
    (r2 : DataResult R2) : DataResult T :=
  withLifecycle (apply2 r1 f r2) .stable

/-- The value part of the `collect_partial_and_message!` macro
(`data_result.rs` lines 7-21): a complete result or the error's carried
value. -/
def collectPart : DataResult R → Option R
  | .success v _ => some v
  | .error p _ _ => p

/-- The message part of the `collect_partial_and_message!` macro: the
messages pushed to the `messages` vector (one for an error, none for a
success). -/
def collectMessages : DataResult R → List String
  | .success _ _ => []
  | .error _ _ m => [m]

/-- Source `DataResult::apply_3`, the `impl_apply!` macro expanded at arity 3
(`data_result.rs` lines 24-85 and 440): if all inputs are successes the
function is applied; otherwise the messages of all error inputs are
joined with `"; "` and the carried values are combined when every input
has one. -/
def apply3 (r1 : DataResult R) (f : R → R2 → R3 → T) (r2 : DataResult R2)
    (r3 : DataResult R3) : DataResult T :=
  match r1, r2, r3 with
  | .success v1 _, .success v2 _, .success v3 _ =>
    .success (f v1 v2 v3) .experimental
  | r1, r2, r3 =>
    .error
      (match collectPart r1, collectPart r2, collectPart r3 with
       | some p1, some p2, some p3 => some (f p1 p2 p3)
       | _, _, _ => none)
      .experimental
      (String.intercalate "; "
        (collectMessages r1 ++ collectMessages r2 ++ collectMessages r3))

/-- Source `DataResult::map_error` (lines 462-471). -/
def mapError (r : DataResult R) (f : String → String) : DataResult R :=
  match r with
  | .success v lc => .success v lc
  | .error p lc m => .error p lc (f m)

/-- Source `DataResult::with_complete_or_partial` (lines 524-536). -/
def withCompleteOrPart (r : DataResult R) (value : T) : DataResult T :=
  match r with
  | .success _ lc => .success value lc
  | .error (some _) lc m => .error (some value) lc m
  | .error none lc m => .error none lc m

/-- Source `DataResult::add_message` (lines 556-593), with the same match-arm
order as the Rust source. -/
def addMessage (r : DataResult R) (other : DataResult T) : DataResult R :=
  match r, other with
  | .success v _, .success _ _ => .success v .stable
  | .error p1 _ m1, .error p2 _ m2 =>
    .error
      (match p1, p2 with
       | some v1, some _ => some v1
       | _, _ => none)
      .stable (appendMessages m1 m2)
  | .error _ _ m1, _ => .error none .stable m1
  | _, .error _ _ m2 => .error none .stable m2

end DataResult

/-- Insertion into an association list, modelling `HashMap::insert`
(later insertions with the same key overwrite earlier ones; lookups see
the most recent binding). -/
def assocInsert [BEq α] (m : List (α × β)) (k : α) (v : β) :
    List (α × β) :=
  (k, v) :: m.filter (fun p => p.1 != k)

/-- Source `KeyCompressor` from `serialization/key_compressor.rs` lines 5-9:
a `String → usize` map, a `usize → String` map, and a `size` counter.
The two `HashMap`s are modelled as association lists. -/
structure KeyCompressor where
  compressMap : List (String × Nat)
  decompressMap : List (Nat × String)
  size : Nat
deriving Repr, DecidableEq

/-- Source `KeyCompressor::new` (lines 13-37).  `getString` models
`ops.get_string(..).into_result()` on each iterated key; keys it rejects
are skipped by the `filter_map`.  As in the source, the fold starts from
`size = 0`, skips keys already present, inserts fresh keys at index
`c.size`, and never changes `size`. -/
def KeyCompressor.new (keyIter : List T) (getString : T → Option String) :
    KeyCompressor :=
  (keyIter.filterMap getString).foldl
    (fun c key =>
      if (List.lookup key c.compressMap).isSome then c
      else
        let i := c.size
        { compressMap := assocInsert c.compressMap key i
          decompressMap := assocInsert c.decompressMap i key
          size := c.size })
    { compressMap := [], decompressMap := [], size := 0 }

/-- Source `KeyCompressor::compress_key_str` (lines 64-66). -/
def KeyCompressor.compressKeyStr (c : KeyCompressor) (key : String) :
    Option Nat :=
  List.lookup key c.compressMap

/-- Source `KeyCompressor::decompress_key_str` (lines 59-61). -/
def KeyCompressor.decompressKeyStr (c : KeyCompressor) (key : Nat) :
    Option String :=
  List.lookup key c.decompressMap

/-- Two's-complement wrap of an integer into the signed `w`-bit range,
the semantics of Rust's `as` between integer types (and of Java's
narrowing integer conversions). -/
def wrapI (w : Nat) (x : Int) : Int :=
  (x + 2 ^ (w - 1)) % 2 ^ w - 2 ^ (w - 1)

/-- Clamp an integer to the interval `[lo, hi]`. -/
def clampI (lo hi x : Int) : Int :=
  max lo (min hi x)

/-- The value of an `f32`/`f64`: a finite value (every finite binary
float is an exact rational), an infinity, or NaN. -/
inductive FpVal where
  | nan : FpVal
  | posInf : FpVal
  | negInf : FpVal
  | fin (q : Rat) : FpVal
deriving Repr

/-- Truncation of a rational toward zero (`q.den` is positive, so
T-division of the numerator by the denominator truncates toward
zero). -/
def ratTrunc (q : Rat) : Int :=
  Int.tdiv q.num q.den

/-- A float-to-integer cast with target range `[lo, hi]`.  Rust's
saturating `as` and Java's primitive conversion agree on this function:
NaN becomes `0`, infinities and out-of-range values saturate, and finite
values are truncated toward zero. -/
def castFpToInt (lo hi : Int) : FpVal → Int
  | .nan => 0
  | .posInf => hi
  | .negInf => lo
  | .fin q => clampI lo hi (ratTrunc q)

/-- Source `i32::MIN`. -/
def i32MinVal : Int := -2147483648

/-- Source `i32::MAX`. -/
def i32MaxVal : Int := 2147483647

/-- Source `i64::MIN`. -/
def i64MinVal : Int := -9223372036854775808

/-- Source `i64::MAX`. -/
def i64MaxVal : Int := 9223372036854775807

/-- Source `Number` from `serialization/mod.rs` lines 28-35.  Integer payloads
are modelled as mathematical integers (each in its Rust type's range at
any use site); float payloads as `FpVal`. -/
inductive Number where
  | byte (b : Int) : Number
  | short (s : Int) : Number
  | int (i : Int) : Number
  | long (l : Int) : Number
  | float (f : FpVal) : Number
  | double (d : FpVal) : Number
deriving Repr

/-- Source `From<Number> for i64` (`mod.rs` lines 37-48): every variant is a
single direct cast. -/
def Number.toI64 : Number → Int
  | .byte b => b
  | .short s => s
  | .int i => i
  | .long l => l
  | .float f => castFpToInt i64MinVal i64MaxVal f
  | .double d => castFpToInt i64MinVal i64MaxVal d

/-- Source `From<Number> for i32` (`mod.rs` lines 50-61): widening variants are
direct, `i64` wraps, floats saturate-truncate. -/
def Number.toI32 : Number → Int
  | .byte b => b
  | .short s => s
  | .int i => i
  | .long l => wrapI 32 l
  | .float f => castFpToInt i32MinVal i32MaxVal f
  | .double d => castFpToInt i32MinVal i32MaxVal d

/-- Source `From<Number> for i16` (`mod.rs` lines 63-68):
`i32::from(num) as i16`. -/
def Number.toI16 (n : Number) : Int :=
  wrapI 16 (Number.toI32 n)

/-- Source `From<Number> for i8` (`mod.rs` lines 70-75):
`i32::from(num) as i8`. -/
def Number.toI8 (n : Number) : Int :=
  wrapI 8 (Number.toI32 n)

/-- The loop state of `ListCodec::decode` (`codecs/list.rs` lines
79-98): the element count, the successfully decoded elements, the
`failed` sidecar, and the running unit `DataResult`. -/
structure ListDecodeState (A T : Type) where
  totalCount : Nat
  elements : List A
  failed : List T
  result : DataResult Unit

/-- One iteration of the `for element in i` loop of `ListCodec::decode`
(`codecs/list.rs` lines 87-98in source order): count the element, push
it to `failed` untouched when the max size is already reached, otherwise
decode it, fold its message into the running result and keep its
complete-or-carried value if any. -/
def listDecodeStep (maxSize : Nat) (elementDecode : T → DataResult (A × T))
    (st : ListDecodeState A T) (element : T) : ListDecodeState A T :=
  let st := { st with totalCount := st.totalCount + 1 }
  if st.elements.length ≥ maxSize then
    { st with failed := st.failed ++ [element] }
  else
    let elementResult := elementDecode element
    let result := DataResult.addMessage st.result elementResult
    match DataResult.intoResultOrPart elementResult with
    | some e => { st with elements := st.elements ++ [e.1], result := result }
    | none => { st with result := result }

/-- Source `ListCodec::create_too_short_error` (`codecs/list.rs` lines
27-32). -/
def listTooShortError (minSize maxSize size : Nat) : DataResult R :=
  DataResult.error none .experimental
    ("List is too short: " ++ toString size ++ ", expected range ["
      ++ toString minSize ++ "-" ++ toString maxSize ++ "]")

/-- Source `ListCodec::create_too_long_error` (`codecs/list.rs` lines
34-39). -/
def listTooLongError (minSize maxSize size : Nat) : DataResult R :=
  DataResult.error none .experimental
    ("List is too long: " ++ toString size ++ ", expected range ["
      ++ toString minSize ++ "-" ++ toString maxSize ++ "]")

/-- Source `ListCodec::decode` (`codecs/list.rs` lines 72-110).  The element
codec becomes `elementDecode`; `ops.get_iter` and `ops.create_list`
become `getIter` and `createList`. -/
def listCodecDecode (minSize maxSize : Nat)
    (elementDecode : T → DataResult (A × T))
    (getIter : T → DataResult (List T)) (createList : List T → T)
    (input : T) : DataResult (List A × T) :=
  let iter := DataResult.withLifecycle (getIter input) .stable
  DataResult.flatMap iter (fun i =>
    let st := i.foldl (listDecodeStep maxSize elementDecode)
      { totalCount := 0, elements := [], failed := []
        result := DataResult.success () .experimental }
    if st.elements.length < minSize then
      listTooShortError minSize maxSize st.elements.length
    else
      let pair := (st.elements, createList st.failed)
      let result :=
        if st.totalCount > maxSize then
          listTooLongError minSize maxSize st.totalCount
        else st.result
      DataResult.withCompleteOrPart result pair)

/-- Source `OptionalFieldMapCodec` from
`serialization/map_codecs/optional_field.rs` lines 16-22 (the element
codec is supplied at the call sites below). -/
structure OptionalFieldMapCodec where
  name : String
  lenient : Bool
deriving Repr, DecidableEq

/-- Source `optional_field` from `serialization/codec.rs` lines 489-494:
constructs with `lenient = false`. -/
def optionalField (name : String) : OptionalFieldMapCodec :=
  { name := name, lenient := false }

/-- Source `lenient_optional_field` from `serialization/codec.rs` lines
502-507: the source constructs with `lenient = false` (not `true`). -/
def lenientOptionalField (name : String) : OptionalFieldMapCodec :=
  { name := name, lenient := false }

/-- Source `OptionalFieldMapCodec::decode` (`optional_field.rs` lines 56-72).
`parse` is the element codec's `parse`; `getStr` is the map view's
`get_str`. -/
def OptionalFieldMapCodec.decode (c : OptionalFieldMapCodec)
    (parse : T → DataResult A) (getStr : String → Option T) :
    DataResult (Option A) :=
  match getStr c.name with
  | none => DataResult.success none .experimental
  | some value =>
    let result := parse value
    if DataResult.isError result && c.lenient then
      DataResult.success none .experimental
    else
      DataResult.map result some

/-- Source `OptionalFieldMapCodec::encode` (`optional_field.rs` lines 40-52).
`encodeStart` is the element codec's `encode_start`; `add` is the
builder's `add_string_key_value_result`, over an arbitrary builder type
`B`. -/
def OptionalFieldMapCodec.encode (c : OptionalFieldMapCodec)
    (encodeStart : A → DataResult T) (add : B → String → DataResult T → B)
    (input : Option A) (pfx : B) : B :=
  match input with
  | some v => add pfx c.name (encodeStart v)
  | none => pfx

/-- Source `Either` from `util/either.rs`. -/
inductive Either (L R : Type u) where
  | left (l : L) : Either L R
  | right (r : R) : Either L R
deriving Repr, DecidableEq

/-- Source `EitherCodec::decode` (`codecs/either.rs` lines 37-77).  The left
and right codecs become the decode functions `leftDec` and `rightDec`;
`get_message().unwrap()` is modelled by `Option.getD` (at the final
branch both results are valueless errors, so a message always
exists). -/
def eitherCodecDecode (leftDec : T → DataResult (L × T))
    (rightDec : T → DataResult (R × T)) (input : T) :
    DataResult (Either L R × T) :=
  let left := DataResult.map (leftDec input) (fun p => (Either.left p.1, p.2))
  if DataResult.isSuccess left then left
  else
    let right :=
      DataResult.map (rightDec input) (fun p => (Either.right p.1, p.2))
    if DataResult.isSuccess right then right
    else if DataResult.hasResultOrPart left then left
    else if DataResult.hasResultOrPart right then right
    else
      DataResult.error none .experimental
        ("Failed to parse either. First: "
          ++ Option.getD (DataResult.getMessage left) ""
          ++ "; Second: "
          ++ Option.getD (DataResult.getMessage right) "")

/-- Source `EitherCodec::encode` (`codecs/either.rs` lines 23-33): dispatch on
the variant. -/
def eitherCodecEncode (leftEnc : L → T → DataResult T)
    (rightEnc : R → T → DataResult T) (input : Either L R) (pfx : T) :
    DataResult T :=
  match input with
  | .left l => leftEnc l pfx
  | .right r => rightEnc r pfx

/-- The `decode`/`map_decode` bodies generated by the string variant of
`impl_key_dispatchable!` (`map_codecs/key_dispatch.rs` lines 278-296):
match the key against the registered variant table (modelled as an
association list of distinct literal keys), falling through to
`DataResult::error("Invalid differentiator value {key}")`. -/
def stringDispatch {I A : Type} (table : List (String × (I → DataResult A)))
    (key : String) (input : I) : DataResult A :=
  match List.lookup key table with
  | some f => f input
  | none =>
    DataResult.error none .experimental ("Invalid differentiator value " ++ key)

/-- Source `KeyDispatchMapCodec::decode` (`map_codecs/key_dispatch.rs` lines
399-417).  `keyDecode` models `key_codec.decode`; `tDecode` and
`tMapDecode` model `T::decode` and `T::map_decode`; `getStr` models the
map view's `get_str`. -/
def keyDispatchMapCodecDecode {M T A : Type} (keyDecode : M → DataResult String)
    (compressMaps : Bool) (tDecode : String → T → DataResult A)
    (tMapDecode : String → M → DataResult A)
    (getStr : M → String → Option T) (input : M) : DataResult A :=
  DataResult.flatMap (keyDecode input) (fun key =>
    if compressMaps then
      match getStr input "value" with
      | none =>
        DataResult.error none .experimental
          "Input doesn\u0027t have a \u0027value\u0027 key"
      | some v => tDecode key v
    else tMapDecode key input)

/-- Helper: `add` on two deprecated lifecycles takes the minimum date. -/
theorem Lifecycle.add_deprecated_deprecated (a b : Nat) :
    Lifecycle.add (.deprecated a) (.deprecated b) = .deprecated (min a b) := by
  simp only [Lifecycle.add]
  split
  · have : min a b = a := by omega
    rw [this]
  · have : min a b = b := by omega
    rw [this]

/-- Helper: `Experimental` absorbs on the left. -/
theorem Lifecycle.add_experimental_left (l : Lifecycle) :
    Lifecycle.add .experimental l = .experimental := by
  cases l <;> rfl

/-- Helper: `Experimental` absorbs on the right. -/
theorem Lifecycle.add_experimental_right (l : Lifecycle) :
    Lifecycle.add l .experimental = .experimental := by
  cases l <;> rfl

/-- Helper: `Stable` is a left identity for `add`. -/
theorem Lifecycle.add_stable_left (l : Lifecycle) :
    Lifecycle.add .stable l = l := by
  cases l <;> rfl

/-- Helper: `Stable` is a right identity for `add`. -/
theorem Lifecycle.add_stable_right (l : Lifecycle) :
    Lifecycle.add l .stable = l := by
  cases l <;> rfl

/-- C5. `Lifecycle::add` is commutative and associative, `Experimental`
is absorbing, `Deprecated(a) + Deprecated(b) = Deprecated(min a b)`,
`Deprecated(a) + Stable = Deprecated(a)` (both orders), and
`Stable + Stable = Stable` — for all lifecycle values and all
deprecation dates. -/
theorem lifecycle_add_monoid_laws :
    (∀ a b : Lifecycle, Lifecycle.add a b = Lifecycle.add b a)
    ∧ (∀ a b c : Lifecycle,
        Lifecycle.add (Lifecycle.add a b) c = Lifecycle.add a (Lifecycle.add b c))
    ∧ (∀ l : Lifecycle,
        Lifecycle.add .experimental l = .experimental
        ∧ Lifecycle.add l .experimental = .experimental)
    ∧ (∀ a b : Nat,
        Lifecycle.add (.deprecated a) (.deprecated b) = .deprecated (min a b))
    ∧ (∀ a : Nat,
        Lifecycle.add (.deprecated a) .stable = .deprecated a
        ∧ Lifecycle.add .stable (.deprecated a) = .deprecated a)
    ∧ Lifecycle.add .stable .stable = .stable := by
  refine ⟨?_, ?_, ?_, Lifecycle.add_deprecated_deprecated, ?_, rfl⟩
  · intro a b
    cases a <;> cases b <;>
      simp only [Lifecycle.add_experimental_left, Lifecycle.add_experimental_right,
        Lifecycle.add_stable_left, Lifecycle.add_stable_right,
        Lifecycle.add_deprecated_deprecated] <;>
      first | rfl | (congr 1 <;> omega)
  · intro a b c
    cases a <;> cases b <;> cases c <;>
      simp only [Lifecycle.add_experimental_left, Lifecycle.add_experimental_right,
        Lifecycle.add_stable_left, Lifecycle.add_stable_right,
        Lifecycle.add_deprecated_deprecated] <;>
      first | rfl | (congr 1 <;> omega)
  · intro l
    cases l <;> exact ⟨rfl, rfl⟩
  · intro a
    exact ⟨rfl, rfl⟩

/-- C1.  Evaluating `KeyCompressor::new` on the two distinct string keys
`"a"`, `"b"`: because the constructor never increments `size`, `size()`
is `0` (the claim expects `2`) and both keys are assigned index `0` (the
claim expects `"b"` to get index `1`); the decompress map maps `0` to the
last key inserted. -/
theorem keyCompressor_new_size_stays_zero :
    (KeyCompressor.new ["a", "b"] some).size = 0
    ∧ KeyCompressor.compressKeyStr (KeyCompressor.new ["a", "b"] some) "a"
        = some 0
    ∧ KeyCompressor.compressKeyStr (KeyCompressor.new ["a", "b"] some) "b"
        = some 0
    ∧ KeyCompressor.decompressKeyStr (KeyCompressor.new ["a", "b"] some) 0
        = some "b" := by
  refine ⟨rfl, ?_, ?_, ?_⟩ <;> decide

/-- C9.  `unwrap` returns the stored value exactly on a `Success` and
panics (modelled as `none`) on every `Error`, partial or not;
`unwrap_or_partial` returns the complete or carried value and panics
exactly when an `Error` carries no value. -/
theorem dataResult_unwrap_succeeds_only_on_success :
    (∀ (R : Type) (v : R) (lc : Lifecycle),
      DataResult.unwrap (.success v lc) = some v)
    ∧ (∀ (R : Type) (p : Option R) (lc : Lifecycle) (m : String),
      DataResult.unwrap (.error p lc m) = none)
    ∧ (∀ (R : Type) (v : R) (lc : Lifecycle),
      DataResult.unwrapOrPart (.success v lc) = some v)
    ∧ (∀ (R : Type) (p : Option R) (lc : Lifecycle) (m : String),
      DataResult.unwrapOrPart (.error p lc m) = p) := by
  refine ⟨?_, ?_, ?_, ?_⟩ <;> intros <;> rfl

/-- C3.  At arity 2 the claim fails: with a first input that is an error
carrying value `1` and a second input that is the success `2`, `apply_2`
returns an error with *no* carried value (the claim expects the carried
value `f 1 2 = 3`).  The macro-generated `apply_3` on the analogous
inputs does produce the carried value, as the claim describes. -/
theorem apply2_drops_part_when_other_is_success :
    DataResult.apply2 (.error (some 1) .experimental "m1")
        (fun a b => a + b) (.success 2 .experimental)
      = DataResult.error (none : Option Nat) .experimental "m1"
    ∧ DataResult.apply3 (.error (some 1) .experimental "m1")
        (fun a b c => a + b + c) (.success 2 .experimental)
        (.success 3 .experimental)
      = DataResult.error (some 6) .experimental "m1" :=
  ⟨rfl, rfl⟩

/-- Helper: wrapping to 8 bits after wrapping to 32 bits equals wrapping
to 8 bits directly. -/
theorem wrapI_8_wrapI_32 (l : Int) : wrapI 8 (wrapI 32 l) = wrapI 8 l := by
  simp only [wrapI]
  norm_num
  omega

/-- Helper: wrapping to 16 bits after wrapping to 32 bits equals
wrapping to 16 bits directly. -/
theorem wrapI_16_wrapI_32 (l : Int) :
    wrapI 16 (wrapI 32 l) = wrapI 16 l := by
  simp only [wrapI]
  norm_num
  omega

/-- C8.  Narrowing a `Number` to `i16`/`i8` goes through the `i32`
conversion (floats truncated toward zero with Java/Rust saturation,
`i64` wrapped) followed by a two's-complement truncation to the target
width; the conversions to `i64` are direct per-variant casts (floats go
straight to the `i64` range, not through `i32`).  Consequently a `Long`
narrows to `i8`/`i16` exactly as Java's direct narrowing would, and
`Double(200.0)` narrows to `i8` as `-56` (where a direct saturating cast
would give `127`). -/
theorem number_narrowing_goes_through_i32 :
    (∀ n : Number,
      Number.toI16 n = wrapI 16 (Number.toI32 n)
      ∧ Number.toI8 n = wrapI 8 (Number.toI32 n))
    ∧ (∀ q : Rat,
      Number.toI32 (.double (.fin q)) = clampI i32MinVal i32MaxVal (ratTrunc q)
      ∧ Number.toI32 (.float (.fin q)) = clampI i32MinVal i32MaxVal (ratTrunc q))
    ∧ (∀ l : Int,
      Number.toI8 (.long l) = wrapI 8 l ∧ Number.toI16 (.long l) = wrapI 16 l)
    ∧ (∀ x : Int,
      Number.toI64 (.byte x) = x ∧ Number.toI64 (.short x) = x
      ∧ Number.toI64 (.int x) = x ∧ Number.toI64 (.long x) = x)
    ∧ (∀ f : FpVal,
      Number.toI64 (.float f) = castFpToInt i64MinVal i64MaxVal f
      ∧ Number.toI64 (.double f) = castFpToInt i64MinVal i64MaxVal f)
    ∧ Number.toI8 (.double (.fin 200)) = -56 := by
  refine ⟨?_, ?_, ?_, ?_, ?_, ?_⟩
  · intro n
    exact ⟨rfl, rfl⟩
  · intro q
    exact ⟨rfl, rfl⟩
  · intro l
    exact ⟨wrapI_8_wrapI_32 l, wrapI_16_wrapI_32 l⟩
  · intro x
    exact ⟨rfl, rfl, rfl, rfl⟩
  · intro f
    exact ⟨rfl, rfl⟩
  · decide

/-- C2.  Decoding the two-element list `["1", "x"]` with an element
codec that decodes `"1"` and rejects `"x"`: the result is an error with
*no* carried value — the successfully decoded element `1` is dropped,
because the running unit result never carries a value once an element
fails and `with_complete_or_partial` then refuses to attach the pair.
The claim expects an error carrying the value `([1], _)`.  (On the
all-success list `["1", "1"]` the same codec succeeds, showing the
embedding decodes normally.) -/
theorem listCodecDecode_no_part_on_element_failure :
    listCodecDecode 0 10
      (fun s => if s = "1" then DataResult.success (1, s) .experimental
        else DataResult.error none .experimental ("Not a number: " ++ s))
      (fun _ => DataResult.success ["1", "x"] .experimental)
      (String.intercalate ",") "in"
    = DataResult.error none .stable "Not a number: x"
    ∧ listCodecDecode 0 10
      (fun s => if s = "1" then DataResult.success (1, s) .experimental
        else DataResult.error none .experimental ("Not a number: " ++ s))
      (fun _ => DataResult.success ["1", "1"] .experimental)
      (String.intercalate ",") "in"
    = DataResult.success ([1, 1], "") .stable := by
  constructor <;> decide

/-- C4.  `lenient_optional_field("x")` is constructed with
`lenient = false`, so decoding a map where `"x"` is present but the
inner codec's parse fails propagates the inner error instead of
returning `Success(None)`; the missing-key half of the claim does hold
(decoding a map without `"x"` gives `Success(None)`). -/
theorem lenientOptionalField_decode_propagates_inner_error :
    OptionalFieldMapCodec.decode (lenientOptionalField "x")
      (fun _ : String => DataResult.error (none : Option Nat) .experimental "bad")
      (fun k => if k = "x" then some "v" else none)
    = DataResult.error none .experimental "bad"
    ∧ OptionalFieldMapCodec.decode (lenientOptionalField "x")
      (fun _ : String => DataResult.error (none : Option Nat) .experimental "bad")
      (fun _ => none)
    = DataResult.success none .experimental
    ∧ (lenientOptionalField "x").lenient = false := by
  refine ⟨?_, rfl, rfl⟩
  decide

/-- C10.  Encoding `None` through an optional-field map codec — any
field name, any leniency flag, any element codec, any builder type and
state — returns the builder unchanged: no key is added and no error or
lifecycle is folded in. -/
theorem optionalField_encode_none_is_identity :
    ∀ (A T B : Type) (name : String) (lenientFlag : Bool)
      (encodeStart : A → DataResult T)
      (add : B → String → DataResult T → B) (b : B),
      OptionalFieldMapCodec.encode { name := name, lenient := lenientFlag }
        encodeStart add none b = b := by
  intros
  rfl

/-- C6.  `either(L, R)` decoding prefers: L's full success, then R's
full success, then L's complete-or-carried value, then R's, and
otherwise produces a valueless error whose message combines both
failure messages; encoding a `Left` uses only the left codec and a
`Right` only the right codec. -/
theorem eitherCodec_decode_preference (leftDec : T → DataResult (L × T))
    (rightDec : T → DataResult (R × T)) (leftEnc : L → T → DataResult T)
    (rightEnc : R → T → DataResult T) (input : T) :
    (DataResult.isSuccess (leftDec input) = true →
      eitherCodecDecode leftDec rightDec input
        = DataResult.map (leftDec input) (fun p => (Either.left p.1, p.2)))
    ∧ (DataResult.isSuccess (leftDec input) = false →
      DataResult.isSuccess (rightDec input) = true →
      eitherCodecDecode leftDec rightDec input
        = DataResult.map (rightDec input) (fun p => (Either.right p.1, p.2)))
    ∧ (DataResult.isSuccess (leftDec input) = false →
      DataResult.isSuccess (rightDec input) = false →
      DataResult.hasResultOrPart (leftDec input) = true →
      eitherCodecDecode leftDec rightDec input
        = DataResult.map (leftDec input) (fun p => (Either.left p.1, p.2)))
    ∧ (DataResult.isSuccess (leftDec input) = false →
      DataResult.isSuccess (rightDec input) = false →
      DataResult.hasResultOrPart (leftDec input) = false →
      DataResult.hasResultOrPart (rightDec input) = true →
      eitherCodecDecode leftDec rightDec input
        = DataResult.map (rightDec input) (fun p => (Either.right p.1, p.2)))
    ∧ (∀ lc1 m1 lc2 m2, leftDec input = .error none lc1 m1 →
      rightDec input = .error none lc2 m2 →
      eitherCodecDecode leftDec rightDec input
        = DataResult.error none .experimental
            ("Failed to parse either. First: " ++ m1 ++ "; Second: " ++ m2))
    ∧ (∀ lv pfx, eitherCodecEncode leftEnc rightEnc (.left lv) pfx
        = leftEnc lv pfx)
    ∧ (∀ rv pfx, eitherCodecEncode leftEnc rightEnc (.right rv) pfx
        = rightEnc rv pfx) := by
  refine ⟨?_, ?_, ?_, ?_, ?_, fun lv pfx => rfl, fun rv pfx => rfl⟩ <;>
    rcases hld : leftDec input with ⟨lv, llc⟩ | ⟨_ | ⟨lp⟩, llc, lm⟩ <;>
    rcases hrd : rightDec input with ⟨rv, rlc⟩ | ⟨_ | ⟨rp⟩, rlc, rm⟩ <;>
    simp [eitherCodecDecode, hld, hrd, DataResult.map, DataResult.isSuccess,
      DataResult.hasResultOrPart, DataResult.getMessage] <;>
    (intros; subst_vars; rfl)

/-- Witness for C6: a left success is returned as `Left`, and when both
sides fail without a value the messages are combined. -/
theorem eitherCodec_decode_preference_witness :
    eitherCodecDecode (fun _ : String => DataResult.success ((5 : Nat), "t") .experimental)
      (fun _ : String => DataResult.error (none : Option (Bool × String)) .experimental "R")
      "v"
    = DataResult.success (Either.left 5, "t") .experimental
    ∧ eitherCodecDecode
      (fun _ : String => DataResult.error (none : Option (Nat × String)) .experimental "L")
      (fun _ : String => DataResult.error (none : Option (Bool × String)) .experimental "R")
      "v"
    = DataResult.error none .experimental
        "Failed to parse either. First: L; Second: R" := by
  constructor
  · have h := eitherCodec_decode_preference
      (fun _ : String => DataResult.success ((5 : Nat), "t") .experimental)
      (fun _ : String => DataResult.error (none : Option (Bool × String)) .experimental "R")
      (fun _ pfx => DataResult.success pfx .experimental)
      (fun _ pfx => DataResult.success pfx .experimental) "v"
    exact (h.1 rfl).trans (by decide)
  · have h := eitherCodec_decode_preference
      (fun _ : String => DataResult.error (none : Option (Nat × String)) .experimental "L")
      (fun _ : String => DataResult.error (none : Option (Bool × String)) .experimental "R")
      (fun _ pfx => DataResult.success pfx .experimental)
      (fun _ pfx => DataResult.success pfx .experimental) "v"
    exact (h.2.2.2.2.1 .experimental "L" .experimental "R" rfl rfl).trans (by decide)

/-- C7.  When the discriminator key decodes successfully but is not in
the variant table, the dispatch returns a valueless error with message
`"Invalid differentiator value <k>"` — both for the generated
`map_decode` itself and through `KeyDispatchMapCodec::decode` in
uncompressed mode and in compressed mode (with the `"value"` entry
present); the result is a constant, so no variant codec is invoked. -/
theorem keyDispatch_unknown_key_is_valueless_error {M T A : Type}
    (table : List (String × (M → DataResult A)))
    (valueTable : List (String × (T → DataResult A)))
    (keyDecode : M → DataResult String) (getStr : M → String → Option T)
    (input : M) (k : String) (klc : Lifecycle)
    (hk : keyDecode input = .success k klc)
    (hmiss : List.lookup k table = none)
    (hmiss2 : List.lookup k valueTable = none) :
    stringDispatch table k input
      = DataResult.error none .experimental ("Invalid differentiator value " ++ k)
    ∧ keyDispatchMapCodecDecode keyDecode false
        (fun key v => stringDispatch valueTable key v)
        (fun key m => stringDispatch table key m) getStr input
      = DataResult.error none .experimental ("Invalid differentiator value " ++ k)
    ∧ (∀ v, getStr input "value" = some v →
      keyDispatchMapCodecDecode keyDecode true
        (fun key v => stringDispatch valueTable key v)
        (fun key m => stringDispatch table key m) getStr input
      = DataResult.error none .experimental
          ("Invalid differentiator value " ++ k)) := by
  refine ⟨?_, ?_, ?_⟩
  · simp [stringDispatch, hmiss]
  · simp [keyDispatchMapCodecDecode, hk, DataResult.flatMap,
      DataResult.addLifecycle, DataResult.withLifecycle, DataResult.lifecycle,
      stringDispatch, hmiss, Lifecycle.add_experimental_left]
  · intro v hv
    simp [keyDispatchMapCodecDecode, hk, DataResult.flatMap,
      DataResult.addLifecycle, DataResult.withLifecycle, DataResult.lifecycle,
      stringDispatch, hmiss2, hv, Lifecycle.add_experimental_left]

/-- Witness for C7: dispatching the unknown key `"square"` against a
table that only knows `"circle"`. -/
theorem keyDispatch_unknown_key_is_valueless_error_witness :
    keyDispatchMapCodecDecode
      (fun _ : String => DataResult.success "square" .stable) false
      (fun key (v : String) =>
        stringDispatch [("circle", fun _ : String => DataResult.success (1 : Nat) .stable)] key v)
      (fun key m =>
        stringDispatch [("circle", fun _ : String => DataResult.success (2 : Nat) .stable)] key m)
      (fun _ _ => none) "input"
    = DataResult.error none .experimental "Invalid differentiator value square" := by
  have h := keyDispatch_unknown_key_is_valueless_error
    [("circle", fun _ : String => DataResult.success (2 : Nat) .stable)]
    [("circle", fun _ : String => DataResult.success (1 : Nat) .stable)]
    (fun _ : String => DataResult.success "square" .stable)
    (fun _ _ => (none : Option String)) "input" "square" .stable rfl rfl rfl
  exact h.2.1.trans (by decide)

end Pumpkin
